import Mathlib

/-!
Verification of the diabetes prediction web application
(`diabetes_prediction_app.py` and `config.py`).

The development shallowly embeds the prediction request pipeline:
the Python dict of request features becomes an association list of
JSON-like values, Python float() becomes an executable partial parser
returning an extended rational (finite rationals plus nan / inf / -inf,
since no claim depends on binary rounding of doubles), the pandas
single-row DataFrame becomes a record of columns / index / data, and
the outbound HTTP call is abstracted by an oracle describing the remote
outcome (timeout, connection error, some other request-library error,
or a response with a status code, raw text, and parsed JSON body).
-/

/-- Result of Python float() conversion: a finite rational, or one of the
non-finite IEEE values nan, inf, -inf (binary rounding is not modelled;
the finite case carries the exact decimal value). -/
inductive PFloat where
  | fin (q : ℚ)
  | nan
  | inf
  | ninf
deriving DecidableEq, Repr

/-- True exactly on the finite values (spec vocabulary: a value that
"parses as a finite real number"). -/
def PFloat.isFinite : PFloat → Bool
  | .fin _ => true
  | _ => false

/-- JSON-like values as delivered by request.get_json() / response.json().
Numbers carry a PFloat because Python's json module accepts the NaN and
Infinity literals. -/
inductive JVal where
  | num (p : PFloat)
  | str (s : String)
  | bool (b : Bool)
  | null
  | arr (l : List JVal)
  | obj (l : List (String × JVal))

/-- Python dict lookup on the association-list model (keys are unique in a
parsed JSON object; first match wins). -/
def lookupKey (k : String) : List (String × JVal) → Option JVal
  | [] => none
  | (k', v) :: rest => if k' = k then some v else lookupKey k rest

/-- Continuation of a digit sequence after at least one digit has been
consumed: accepts further digits, and a single underscore only when a
digit follows it. -/
def takeDigitsAfter : List Char → List Char × List Char
  | [] => ([], [])
  | c :: cs =>
    if c.isDigit then
      let p := takeDigitsAfter cs
      (c :: p.1, p.2)
    else if c = '_' then
      match cs with
      | [] => ([], ['_'])
      | c2 :: cs2 =>
        if c2.isDigit then
          let p := takeDigitsAfter cs2
          (c2 :: p.1, p.2)
        else ([], '_' :: c2 :: cs2)
    else ([], c :: cs)

/-- Digit sequence of a Python numeric literal, with single underscores
allowed between digits: consumes `digit (["_"] digit)*`, returning the
digits consumed (underscores dropped) and the remaining characters. -/
def takeDigits : List Char → List Char × List Char
  | [] => ([], [])
  | c :: cs =>
    if c.isDigit then
      let p := takeDigitsAfter cs
      (c :: p.1, p.2)
    else ([], c :: cs)

/-- Value of a list of decimal digits. -/
def digitsToNat (ds : List Char) : Nat :=
  ds.foldl (fun n c => 10 * n + (c.toNat - '0'.toNat)) 0

/-- Strip leading and trailing whitespace, as Python float() does. -/
def trimChars (cs : List Char) : List Char :=
  ((cs.dropWhile Char.isWhitespace).reverse.dropWhile Char.isWhitespace).reverse

/-- Parse the mantissa/exponent form of a Python float literal
(`([digitpart] "." digitpart | digitpart ["."]) [("e"|"E") [sign] digitpart]`)
after the optional sign has been removed. -/
def parseDecimal (neg : Bool) (cs : List Char) : Option PFloat :=
  let ipr := takeDigits cs
  let ip := ipr.1
  let dotted :=
    match ipr.2 with
    | '.' :: r => (true, takeDigits r)
    | _ => (false, (([] : List Char), ipr.2))
  let fp := dotted.2.1
  let r2 := dotted.2.2
  if ip.isEmpty && (!dotted.1 || fp.isEmpty) then none
  else
    let ex :=
      match r2 with
      | c :: r =>
        if c = 'e' || c = 'E' then
          match r with
          | '+' :: rr => (false, takeDigits rr)
          | '-' :: rr => (true, takeDigits rr)
          | rr => (false, takeDigits rr)
        else (false, (([] : List Char), r2))
      | [] => (false, (([] : List Char), ([] : List Char)))
    let expNeg := ex.1
    let ep := ex.2.1
    let r3 := ex.2.2
    let sawExp := r2 ≠ [] && (match r2 with | c :: _ => c = 'e' || c = 'E' | [] => false)
    if sawExp && ep.isEmpty then none
    else if !r3.isEmpty then none
    else
      let N : ℕ := digitsToNat (ip ++ fp)
      let E : ℕ := digitsToNat ep
      let signedN : ℤ := if neg then -(N : ℤ) else (N : ℤ)
      let mag : ℚ :=
        if expNeg then mkRat signedN (10 ^ (fp.length + E))
        else mkRat (signedN * ((10 ^ E : ℕ) : ℤ)) (10 ^ fp.length)
      some (.fin mag)

/-- Python float(str): optional whitespace and sign, then a decimal
literal or a case-insensitive "inf" / "infinity" / "nan". Returns none
exactly when float() raises ValueError. -/
def parsePyFloat (s : String) : Option PFloat :=
  let cs0 := trimChars s.toList
  let signed :=
    match cs0 with
    | '+' :: r => (false, r)
    | '-' :: r => (true, r)
    | r => (false, r)
  let neg := signed.1
  let cs := signed.2
  let lower := cs.map Char.toLower
  if lower = "inf".toList || lower = "infinity".toList then
    some (if neg then .ninf else .inf)
  else if lower = "nan".toList then some .nan
  else parseDecimal neg cs

/-- Python float(v) on a JSON value: numbers pass through, booleans map to
1.0 / 0.0, strings go through the literal parser; None, lists and objects
raise TypeError (returned as none, like the ValueError case, because
validate_input_data catches both). -/
def pyFloat : JVal → Option PFloat
  | .num p => some p
  | .bool b => some (.fin (mkRat (if b then 1 else 0) 1))
  | .str s => parsePyFloat s
  | .null => none
  | .arr _ => none
  | .obj _ => none

/-- Config.MODEL_FEATURES: the fixed ordered list of the 10 feature names
the model expects (config.py). -/
def MODEL_FEATURES : List String :=
  ["age", "sex", "bmi", "bp", "s1", "s2", "s3", "s4", "s5", "s6"]

/-- The list comprehension `[f for f in required_features if f not in data]`
of validate_input_data. -/
def missingFeatures (data : List (String × JVal)) : List String :=
  MODEL_FEATURES.filter (fun f => (lookupKey f data).isNone)

/-- The for-loop of validate_input_data: first feature (in declared order)
whose value float() cannot convert. Only called once every feature is
present, so the .null default for an absent key is unreachable. -/
def firstInvalidFeature (fs : List String) (data : List (String × JVal)) : Option String :=
  match fs with
  | [] => none
  | f :: rest =>
    if (pyFloat ((lookupKey f data).getD .null)).isNone then some f
    else firstInvalidFeature rest data

/-- validate_input_data (diabetes_prediction_app.py): all required features
present, and every value convertible by float(); returns (is_valid,
error_message). -/
def validate_input_data (data : List (String × JVal)) : Bool × String :=
  let missing := missingFeatures data
  if !missing.isEmpty then
    (false, "Missing required features: " ++ String.intercalate ", " missing)
  else
    match firstInvalidFeature MODEL_FEATURES data with
    | some f => (false, "Invalid value for feature \x27" ++ f ++ "\x27: must be a number")
    | none => (true, "")

/-- The dict comprehension of build_dataframe_from_request, iterated over a
feature-name list: `float(data.get(feature, 0))` for each feature, failing
(Python: raising, caught only at the /predict handler) as soon as one
conversion fails. The default 0 for an absent key converts to 0.0. -/
def featureRow (fs : List String) (data : List (String × JVal)) : Option (List PFloat) :=
  match fs with
  | [] => some []
  | f :: rest =>
    match pyFloat ((lookupKey f data).getD (.num (.fin 0))) with
    | none => none
    | some v => (featureRow rest data).map (fun r => v :: r)

/-- A single-row pandas DataFrame as produced by
`pd.DataFrame([feature_dict])`: column names in dict insertion order, the
default integer index, and the rows. -/
structure DataFrame where
  columns : List String
  index : List Nat
  data : List (List PFloat)
deriving DecidableEq

/-- build_dataframe_from_request (diabetes_prediction_app.py): one row with
the 10 features in declared order, each value coerced with float(),
missing entries defaulting to 0. Returns none when float() raises, which
validation makes unreachable on the /predict path. -/
def build_dataframe_from_request (data : List (String × JVal)) : Option DataFrame :=
  (featureRow MODEL_FEATURES data).map
    (fun row => { columns := MODEL_FEATURES, index := [0], data := [row] })

/-- Application configuration (config.py). Token and endpoint URL are
environment-sourced and may be unset (none); Python truthiness also treats
an empty string as unset. -/
structure Config where
  DATABRICKS_TOKEN : Option String
  MLFLOW_ENDPOINT_URL : Option String
  REQUEST_TIMEOUT : Nat
  APP_NAME : String
  APP_VERSION : String

/-- Python truthiness of an optional string: None and the empty string are
falsy. -/
def pyTruthyStr : Option String → Bool
  | none => false
  | some s => !s.isEmpty

/-- Config.validate_config (config.py): collects an error string for a
missing token, a missing endpoint URL, and a non-HTTPS endpoint URL, and
is valid when no error was collected. -/
def validate_config (cfg : Config) : Bool × List String :=
  let e1 : List String :=
    if pyTruthyStr cfg.DATABRICKS_TOKEN then []
    else ["DATABRICKS_TOKEN is not set. Please set it in your .env file or as an environment variable."]
  let e2 : List String := e1 ++
    (if pyTruthyStr cfg.MLFLOW_ENDPOINT_URL then []
     else ["MLFLOW_ENDPOINT_URL is not set. Please configure your MLflow endpoint URL."])
  let url := cfg.MLFLOW_ENDPOINT_URL.getD ""
  let e3 : List String := e2 ++
    (if pyTruthyStr cfg.MLFLOW_ENDPOINT_URL && !(List.isPrefixOf "https://".toList url.toList) then
      ["MLFLOW_ENDPOINT_URL should use HTTPS for security. Current URL: " ++ url]
     else [])
  (e3.isEmpty, e3)

/-- The headers sent by score_model. -/
def request_headers (cfg : Config) : List (String × String) :=
  [("Authorization", "Bearer " ++ cfg.DATABRICKS_TOKEN.getD ""),
   ("Content-Type", "application/json")]

/-- The JSON payload score_model serializes for a DataFrame:
`dataset.to_dict(orient="split")` (keys index, columns, data in pandas
order) wrapped under the single key dataframe_split. json.dumps is called
with allow_nan=True, so non-finite row values serialize without error. -/
def score_request_payload (dataset : DataFrame) : JVal :=
  .obj [("dataframe_split", .obj
    [("index", .arr (dataset.index.map (fun i => .num (.fin i)))),
     ("columns", .arr (dataset.columns.map .str)),
     ("data", .arr (dataset.data.map (fun row => .arr (row.map .num))))])]

/-- Outcome of the single outbound requests.post call, abstracting the
network: the configured timeout elapses, a transport-level connection
failure, some other error raised by the requests library (a
requests.exceptions.RequestException not caught inside score_model), or a
response with an HTTP status, raw text body, and parsed JSON body (the
model assumes a 200 body that response.json() can parse). -/
inductive RemoteOutcome where
  | timeout
  | connectionError
  | otherRequestError (msg : String)
  | response (status : Nat) (text : String) (body : JVal)

/-- An error propagating out of score_model, tagged with how the /predict
handler classifies it: exn for a plain Exception (score_model raises these
itself), requestExn for a requests.exceptions.RequestException that passes
through score_model uncaught. -/
inductive ScoreError where
  | exn (msg : String)
  | requestExn (msg : String)

/-- score_model (diabetes_prediction_app.py): the timeout and connection
failures are re-raised as plain Exceptions with descriptive messages, any
other requests-library error propagates unchanged, a non-200 status raises
a plain Exception embedding the status code and raw body, and a 200
response is parsed as JSON and returned. -/
def score_model (cfg : Config) (dataset : DataFrame) (remote : RemoteOutcome) :
    Except ScoreError JVal :=
  let _data_json := score_request_payload dataset
  match remote with
  | .timeout =>
    .error (.exn ("Request timed out after " ++ toString cfg.REQUEST_TIMEOUT ++
      " seconds. The model endpoint may be slow or unavailable."))
  | .connectionError =>
    .error (.exn "Failed to connect to the model endpoint. Check your internet connection and endpoint URL.")
  | .otherRequestError msg => .error (.requestExn msg)
  | .response status text body =>
    if status ≠ 200 then
      .error (.exn ("Request failed with status " ++ toString status ++
        ". Response: " ++ text))
    else .ok body

/-- Python membership test `"predictions" in result` when result is a list:
true only for an element that is the equal string. -/
def pyStrInList (s : String) (l : List JVal) : Bool :=
  l.any (fun v => match v with | .str t => t = s | _ => false)

/-- Substring occurrence on character lists. -/
def listContainsSub (needle : List Char) : List Char → Bool
  | [] => needle.isEmpty
  | c :: cs => List.isPrefixOf needle (c :: cs) || listContainsSub needle cs

/-- Python substring test `"predictions" in result` when result is a str. -/
def pyStrInStr (needle hay : String) : Bool :=
  listContainsSub needle.toList hay.toList

/-- The interpretation step of /predict on the parsed scoring result:
`result["predictions"][0]` when the membership test succeeds, otherwise the
whole result. Error strings model the messages of the Python exceptions
(IndexError / TypeError / KeyError) that the branches raise; every such
error is a plain Exception caught by the handler's generic branch. -/
def extract_prediction (result : JVal) : Except String JVal :=
  match result with
  | .obj kvs =>
    match lookupKey "predictions" kvs with
    | some (.arr (x :: _)) => .ok x
    | some (.arr []) => .error "list index out of range"
    | some (.str s) =>
      match s.toList with
      | c :: _ => .ok (.str (String.mk [c]))
      | [] => .error "string index out of range"
    | some (.obj _) => .error "0"
    | some _ => .error "\x27float\x27 object is not subscriptable"
    | none => .ok result
  | .arr l =>
    if pyStrInList "predictions" l then
      .error "list indices must be integers or slices, not str"
    else .ok result
  | .str s =>
    if pyStrInStr "predictions" s then
      .error "string indices must be integers"
    else .ok result
  | _ => .error "argument of type is not iterable"

/-- A Flask response: the jsonify body and the HTTP status code. -/
structure HttpResponse where
  body : JVal
  status : Nat

/-- The /predict error envelope. -/
def errorBody (msg : String) : JVal :=
  .obj [("success", .bool false), ("error", .str msg)]

/-- The /predict success envelope. -/
def successBody (p : JVal) : JVal :=
  .obj [("success", .bool true), ("prediction", p)]

/-- The /predict handler (diabetes_prediction_app.py). The request body is
the JSON object parsed by request.get_json, or none when no body was
parsed; the handler's `if not data` check treats an absent body and a
falsy (empty) object alike. Errors raised during scoring map to 500 for
requests.exceptions.RequestException and to 400 for every other
exception, each with the exception text embedded in the envelope. -/
def predict (cfg : Config) (remote : RemoteOutcome)
    (body : Option (List (String × JVal))) : HttpResponse :=
  match body with
  | none => ⟨errorBody "No data provided in request body", 400⟩
  | some data =>
    if data.isEmpty then ⟨errorBody "No data provided in request body", 400⟩
    else
      let v := validate_input_data data
      if !v.1 then ⟨errorBody v.2, 400⟩
      else
        match build_dataframe_from_request data with
        | none => ⟨errorBody "An error occurred: could not convert value to float", 400⟩
        | some df =>
          match score_model cfg df remote with
          | .error (.requestExn msg) =>
            ⟨errorBody ("Network error while calling model endpoint: " ++ msg), 500⟩
          | .error (.exn msg) =>
            ⟨errorBody ("An error occurred: " ++ msg), 400⟩
          | .ok result =>
            match extract_prediction result with
            | .ok p => ⟨successBody p, 200⟩
            | .error msg => ⟨errorBody ("An error occurred: " ++ msg), 400⟩

/-- The /health handler (diabetes_prediction_app.py): re-validates the
configuration on every call and reports healthy (200) or unhealthy with
the collected error strings (500). -/
def health_check (cfg : Config) : HttpResponse :=
  let v := validate_config cfg
  if v.1 then
    ⟨.obj [("status", .str "healthy"), ("app", .str cfg.APP_NAME),
           ("version", .str cfg.APP_VERSION)], 200⟩
  else
    ⟨.obj [("status", .str "unhealthy"), ("errors", .arr (v.2.map .str))], 500⟩

/-- A zero-valued JSON number, used by the concrete example requests. -/
def jz : JVal := .num (.fin 0)

/-- A fully configured Config (token set, HTTPS endpoint, default 30-second
timeout, default app metadata). -/
def cfgEx : Config :=
  ⟨some "secret-token", some "https://example.test/model", 30,
   "Diabetes Progression Predictor", "1.0.0"⟩

/-- A Config with both the token and the endpoint URL unset. -/
def cfgUnset : Config :=
  ⟨none, none, 30, "Diabetes Progression Predictor", "1.0.0"⟩

/-- A request body with every feature present and zero. -/
def dZeros : List (String × JVal) :=
  MODEL_FEATURES.map (fun f => (f, jz))

/-- A request body missing the features bmi and s5. -/
def dMiss : List (String × JVal) :=
  [("age", jz), ("sex", jz), ("bp", jz), ("s1", jz), ("s2", jz), ("s3", jz),
   ("s4", jz), ("s6", jz)]

/-- A request body whose bp value is a non-numeric string. -/
def dInv : List (String × JVal) :=
  [("age", jz), ("sex", jz), ("bmi", jz), ("bp", .str "oops"), ("s1", jz),
   ("s2", jz), ("s3", jz), ("s4", jz), ("s5", jz), ("s6", jz)]

/-- A request body whose age value is the string nan, which Python float()
accepts as a not-a-number value. -/
def dNan : List (String × JVal) :=
  [("age", .str "nan"), ("sex", jz), ("bmi", jz), ("bp", jz), ("s1", jz),
   ("s2", jz), ("s3", jz), ("s4", jz), ("s5", jz), ("s6", jz)]

/-- A request body mixing a numeric string and a boolean with plain JSON
numbers. -/
def dMixed : List (String × JVal) :=
  [("age", .str "0.5"), ("sex", .bool true), ("bmi", jz), ("bp", jz),
   ("s1", jz), ("s2", jz), ("s3", jz), ("s4", jz), ("s5", jz), ("s6", jz)]

/-- The same mapping as dMixed with its entries listed in reverse order. -/
def dMixedPerm : List (String × JVal) := dMixed.reverse

/-- The parsed values of dMixed, by feature name. -/
def pvMixed (f : String) : PFloat :=
  if f = "age" then .fin (mkRat 1 2)
  else if f = "sex" then .fin (mkRat 1 1)
  else .fin 0

/-- The row of floats the vectorizer extracts from a request body, one per
declared feature in declared order (the getD defaults are unreachable when
validation has succeeded). -/
def rowOf (d : List (String × JVal)) : List PFloat :=
  MODEL_FEATURES.map (fun f => (pyFloat ((lookupKey f d).getD (.num (.fin 0)))).getD (.fin 0))

/-- A parsed scoring response carrying a predictions array (the spec's
152.5 example). -/
def predResp : List (String × JVal) := [("predictions", .arr [.num (.fin (mkRat 305 2))])]

/-- A parsed scoring response without a predictions field. -/
def predRespNoField : List (String × JVal) := [("model_version", .str "7")]

theorem isSome_iff_isNone_false {α : Type} (o : Option α) :
    o.isSome = true ↔ o.isNone = false := by
  cases o <;> simp

theorem missingFeatures_eq_nil_iff (d : List (String × JVal)) :
    missingFeatures d = [] ↔ ∀ f ∈ MODEL_FEATURES, lookupKey f d ≠ none := by
  simp [missingFeatures, List.filter_eq_nil_iff]

theorem firstInvalidFeature_eq_none_iff (fs : List String) (d : List (String × JVal)) :
    firstInvalidFeature fs d = none ↔
      ∀ f ∈ fs, (pyFloat ((lookupKey f d).getD .null)).isNone = false := by
  induction fs with
  | nil => simp [firstInvalidFeature]
  | cons f rest ih =>
    cases hc : (pyFloat ((lookupKey f d).getD .null)).isNone with
    | true => simp [firstInvalidFeature, hc]
    | false =>
      simp only [firstInvalidFeature, hc, Bool.false_eq_true, if_false,
        List.forall_mem_cons, ih]
      have : (pyFloat ((lookupKey f d).getD .null)).isNone = false := hc
      simp [this]

theorem firstInvalidFeature_append (l1 : List String) (f : String) (l2 : List String)
    (d : List (String × JVal))
    (hgood : ∀ g ∈ l1, (pyFloat ((lookupKey g d).getD .null)).isNone = false)
    (hbad : (pyFloat ((lookupKey f d).getD .null)).isNone = true) :
    firstInvalidFeature (l1 ++ f :: l2) d = some f := by
  induction l1 with
  | nil => simp [firstInvalidFeature, hbad]
  | cons g gs ih =>
    have hg := hgood g (List.mem_cons_self g gs)
    simp only [List.cons_append, firstInvalidFeature, hg]
    simp only [Bool.false_eq_true, if_false]
    exact ih (fun x hx => hgood x (List.mem_cons_of_mem g hx))

theorem validate_eq_missing (d : List (String × JVal)) (h : missingFeatures d ≠ []) :
    validate_input_data d =
      (false, "Missing required features: " ++ String.intercalate ", " (missingFeatures d)) := by
  have he : (missingFeatures d).isEmpty = false := by
    cases hm : missingFeatures d with
    | nil => exact absurd hm h
    | cons a l => rfl
  simp [validate_input_data, he]

theorem validate_eq_invalid (d : List (String × JVal)) (f : String)
    (hm : missingFeatures d = [])
    (hf : firstInvalidFeature MODEL_FEATURES d = some f) :
    validate_input_data d =
      (false, "Invalid value for feature \x27" ++ f ++ "\x27: must be a number") := by
  simp [validate_input_data, hm, hf]

theorem validate_eq_ok (d : List (String × JVal))
    (hm : missingFeatures d = [])
    (hf : firstInvalidFeature MODEL_FEATURES d = none) :
    validate_input_data d = (true, "") := by
  simp [validate_input_data, hm, hf]

theorem validate_ok_parts (d : List (String × JVal))
    (h : (validate_input_data d).1 = true) :
    missingFeatures d = [] ∧ firstInvalidFeature MODEL_FEATURES d = none := by
  by_cases hm : missingFeatures d = []
  · refine ⟨hm, ?_⟩
    cases hf : firstInvalidFeature MODEL_FEATURES d with
    | none => rfl
    | some f =>
      rw [validate_eq_invalid d f hm hf] at h
      simp at h
  · rw [validate_eq_missing d hm] at h
    simp at h

theorem validate_ok_char (d : List (String × JVal)) :
    (validate_input_data d).1 = true ↔
      ∀ f ∈ MODEL_FEATURES, ∃ v, lookupKey f d = some v ∧ (pyFloat v).isSome = true := by
  constructor
  · intro h f hf
    obtain ⟨hm, hfi⟩ := validate_ok_parts d h
    have hpres := (missingFeatures_eq_nil_iff d).1 hm f hf
    obtain ⟨v, hv⟩ : ∃ v, lookupKey f d = some v := by
      cases hl : lookupKey f d with
      | none => exact absurd hl hpres
      | some v => exact ⟨v, rfl⟩
    have hgood := (firstInvalidFeature_eq_none_iff MODEL_FEATURES d).1 hfi f hf
    rw [hv] at hgood
    exact ⟨v, hv, (isSome_iff_isNone_false _).2 (by simpa using hgood)⟩
  · intro h
    have hm : missingFeatures d = [] := by
      rw [missingFeatures_eq_nil_iff]
      intro f hf
      obtain ⟨v, hv, _⟩ := h f hf
      simp [hv]
    have hfi : firstInvalidFeature MODEL_FEATURES d = none := by
      rw [firstInvalidFeature_eq_none_iff]
      intro f hf
      obtain ⟨v, hv, hp⟩ := h f hf
      rw [hv]
      simpa using (isSome_iff_isNone_false _).1 hp
    rw [validate_eq_ok d hm hfi]

theorem validate_eq_of_ok (d : List (String × JVal))
    (h : (validate_input_data d).1 = true) :
    validate_input_data d = (true, "") := by
  obtain ⟨hm, hfi⟩ := validate_ok_parts d h
  exact validate_eq_ok d hm hfi

theorem featureRow_eq_of_good (fs : List String) (d : List (String × JVal))
    (h : ∀ f ∈ fs, (pyFloat ((lookupKey f d).getD (.num (.fin 0)))).isSome = true) :
    featureRow fs d =
      some (fs.map (fun f => (pyFloat ((lookupKey f d).getD (.num (.fin 0)))).getD (.fin 0))) := by
  induction fs with
  | nil => simp [featureRow]
  | cons f rest ih =>
    have hf := h f (List.mem_cons_self f rest)
    cases hp : pyFloat ((lookupKey f d).getD (.num (.fin 0))) with
    | none => rw [hp] at hf; simp at hf
    | some v =>
      simp [featureRow, hp, ih (fun x hx => h x (List.mem_cons_of_mem f hx))]

theorem build_of_valid (d : List (String × JVal))
    (h : (validate_input_data d).1 = true) :
    build_dataframe_from_request d = some ⟨MODEL_FEATURES, [0], [rowOf d]⟩ := by
  have hchar := (validate_ok_char d).1 h
  have hg : ∀ f ∈ MODEL_FEATURES,
      (pyFloat ((lookupKey f d).getD (.num (.fin 0)))).isSome = true := by
    intro f hf
    obtain ⟨v, hv, hp⟩ := hchar f hf
    rw [hv]
    simpa using hp
  simp [build_dataframe_from_request, featureRow_eq_of_good MODEL_FEATURES d hg, rowOf]

theorem valid_isEmpty_false (d : List (String × JVal))
    (h : (validate_input_data d).1 = true) : d.isEmpty = false := by
  obtain ⟨v, hv, _⟩ := (validate_ok_char d).1 h "age" (by decide)
  cases d with
  | nil => simp [lookupKey] at hv
  | cons a l => rfl

theorem predict_valid_eq (cfg : Config) (remote : RemoteOutcome) (d : List (String × JVal))
    (h : (validate_input_data d).1 = true) :
    predict cfg remote (some d) =
      (match score_model cfg ⟨MODEL_FEATURES, [0], [rowOf d]⟩ remote with
       | .error (.requestExn msg) =>
         ⟨errorBody ("Network error while calling model endpoint: " ++ msg), 500⟩
       | .error (.exn msg) => ⟨errorBody ("An error occurred: " ++ msg), 400⟩
       | .ok result =>
         match extract_prediction result with
         | .ok p => ⟨successBody p, 200⟩
         | .error msg => ⟨errorBody ("An error occurred: " ++ msg), 400⟩) := by
  simp [predict, valid_isEmpty_false d h, validate_eq_of_ok d h, build_of_valid d h]

/-- C2: for every input mapping that is missing at least one of the 10
required feature names, validate_input_data returns ok=false and a message
that lists exactly the missing names, comma-joined, in the declared
feature order (the listed names form a subsequence of MODEL_FEATURES, and
a name is listed iff it is required and absent). -/
theorem validate_missing_features_message (d : List (String × JVal))
    (h : ∃ f ∈ MODEL_FEATURES, lookupKey f d = none) :
    (validate_input_data d).1 = false ∧
    ∃ l, (validate_input_data d).2 =
        "Missing required features: " ++ String.intercalate ", " l ∧
      l.Sublist MODEL_FEATURES ∧
      ∀ f, f ∈ l ↔ (f ∈ MODEL_FEATURES ∧ lookupKey f d = none) := by
  obtain ⟨f0, hf0, hl0⟩ := h
  have hne : missingFeatures d ≠ [] := by
    intro hm
    exact absurd hl0 ((missingFeatures_eq_nil_iff d).1 hm f0 hf0)
  rw [validate_eq_missing d hne]
  refine ⟨rfl, missingFeatures d, rfl, List.filter_sublist _, ?_⟩
  intro f
  simp [missingFeatures, List.mem_filter, Option.isNone_iff_eq_none]

/-- Witness for C2: dMiss lacks bmi and s5, and the validator reports
exactly those two, in declared order. -/
theorem validate_missing_features_message_witness :
    (∃ f ∈ MODEL_FEATURES, lookupKey f dMiss = none) ∧
    (validate_input_data dMiss).1 = false ∧
    (validate_input_data dMiss).2 = "Missing required features: bmi, s5" :=
  have h : ∃ f ∈ MODEL_FEATURES, lookupKey f dMiss = none := ⟨"bmi", by decide, rfl⟩
  ⟨h, (validate_missing_features_message dMiss h).1, by decide⟩

/-- C3: for an input mapping in which all 10 required names are present,
validation succeeds with an empty message when every value parses under
float(), and otherwise fails naming the first (in declared order) feature
whose value does not parse, stating it must be a number. -/
theorem validate_first_invalid_feature (d : List (String × JVal))
    (hpres : ∀ f ∈ MODEL_FEATURES, (lookupKey f d).isSome = true) :
    ((∀ f ∈ MODEL_FEATURES, ∃ v, lookupKey f d = some v ∧ (pyFloat v).isSome = true) →
        validate_input_data d = (true, "")) ∧
    (∀ f v l1 l2, MODEL_FEATURES = l1 ++ f :: l2 →
        lookupKey f d = some v → pyFloat v = none →
        (∀ g ∈ l1, ∃ w, lookupKey g d = some w ∧ (pyFloat w).isSome = true) →
        validate_input_data d =
          (false, "Invalid value for feature \x27" ++ f ++ "\x27: must be a number")) := by
  constructor
  · intro hall
    exact validate_eq_of_ok d ((validate_ok_char d).2 hall)
  · intro f v l1 l2 hsplit hv hbad hgoods
    have hm : missingFeatures d = [] := by
      rw [missingFeatures_eq_nil_iff]
      intro g hg
      have := hpres g hg
      cases hl : lookupKey g d with
      | none => rw [hl] at this; simp at this
      | some w => simp
    have hfi : firstInvalidFeature MODEL_FEATURES d = some f := by
      rw [hsplit]
      apply firstInvalidFeature_append
      · intro g hg
        obtain ⟨w, hw, hps⟩ := hgoods g hg
        rw [hw]
        simpa using (isSome_iff_isNone_false _).1 hps
      · rw [hv]
        simp [hbad]
    exact validate_eq_invalid d f hm hfi

/-- Witness for C3: with bp bound to a non-numeric string the validator
names bp, and with all-numeric values it succeeds with an empty message. -/
theorem validate_first_invalid_feature_witness :
    (∀ f ∈ MODEL_FEATURES, (lookupKey f dInv).isSome = true) ∧
    validate_input_data dInv =
      (false, "Invalid value for feature \x27bp\x27: must be a number") ∧
    validate_input_data dZeros = (true, "") := by
  have hp : ∀ f ∈ MODEL_FEATURES, (lookupKey f dInv).isSome = true := by decide
  have hp2 : ∀ f ∈ MODEL_FEATURES, (lookupKey f dZeros).isSome = true := by decide
  refine ⟨hp, ?_, ?_⟩
  · exact (validate_first_invalid_feature dInv hp).2 "bp" (.str "oops")
      ["age", "sex", "bmi"] ["s1", "s2", "s3", "s4", "s5", "s6"] rfl rfl (by decide)
      (by intro g hg; fin_cases hg <;> exact ⟨jz, rfl, rfl⟩)
  · exact (validate_first_invalid_feature dZeros hp2).1
      (by intro f hf; fin_cases hf <;> exact ⟨jz, rfl, rfl⟩)

/-- C9 counterexample: the claim that every accepted value parses as a
finite real number is false: the body dNan binds age to the string nan,
validation accepts it (ok=true, empty message), yet float() parses that
value to the non-finite not-a-number value. -/
theorem validate_accepts_nan_counterexample :
    validate_input_data dNan = (true, "") ∧
    lookupKey "age" dNan = some (.str "nan") ∧
    pyFloat (.str "nan") = some PFloat.nan ∧
    PFloat.nan.isFinite = false :=
  ⟨by decide, rfl, by decide, rfl⟩

/-- C9 amended: for every input mapping accepted by validate_input_data,
every required feature is present and its value parses under float() to
some value — finite or not (nan and the infinities are accepted). -/
theorem accepted_values_parse_as_floats (d : List (String × JVal))
    (h : (validate_input_data d).1 = true) :
    ∀ f ∈ MODEL_FEATURES, ∃ v p, lookupKey f d = some v ∧ pyFloat v = some p := by
  intro f hf
  obtain ⟨v, hv, hp⟩ := (validate_ok_char d).1 h f hf
  cases hpv : pyFloat v with
  | none => rw [hpv] at hp; simp at hp
  | some p => exact ⟨v, p, hv, hpv⟩

/-- Witness for the amended C9, at the accepted body dNan and feature age. -/
theorem accepted_values_parse_as_floats_witness :
    (validate_input_data dNan).1 = true ∧
    (∃ v p, lookupKey "age" dNan = some v ∧ pyFloat v = some p) :=
  ⟨by decide, accepted_values_parse_as_floats dNan (by decide) "age" (by decide)⟩

/-- C10: validate_input_data accepts any values on which float() succeeds,
JSON numbers or not (numeric strings, booleans), and for such inputs
build_dataframe_from_request coerces each value with float(), so the
scored row holds the parsed numeric values in declared feature order. -/
theorem validate_and_vectorize_coerce_nonjson_numbers
    (d : List (String × JVal)) (pv : String → PFloat)
    (h : ∀ f ∈ MODEL_FEATURES, ∃ v, lookupKey f d = some v ∧ pyFloat v = some (pv f)) :
    validate_input_data d = (true, "") ∧
    build_dataframe_from_request d = some ⟨MODEL_FEATURES, [0], [ MODEL_FEATURES.map pv ]⟩ := by
  have hok : (validate_input_data d).1 = true := by
    rw [validate_ok_char]
    intro f hf
    obtain ⟨v, hv, hp⟩ := h f hf
    exact ⟨v, hv, by simp [hp]⟩
  refine ⟨validate_eq_of_ok d hok, ?_⟩
  rw [build_of_valid d hok]
  have hrow : rowOf d = MODEL_FEATURES.map pv := by
    unfold rowOf
    apply List.map_congr_left
    intro f hf
    obtain ⟨v, hv, hp⟩ := h f hf
    simp [hv, hp]
  rw [hrow]

/-- Witness for C10: dMixed carries the numeric string 0.5 and the boolean
True; it validates, and the built row holds 0.5 and 1.0, not the original
string and boolean. -/
theorem validate_and_vectorize_coerce_nonjson_numbers_witness :
    validate_input_data dMixed = (true, "") ∧
    build_dataframe_from_request dMixed =
      some ⟨MODEL_FEATURES, [0], [ MODEL_FEATURES.map pvMixed ]⟩ :=
  validate_and_vectorize_coerce_nonjson_numbers dMixed pvMixed
    (by intro f hf; fin_cases hf <;> exact ⟨_, rfl, by decide⟩)

theorem featureRow_congr (fs : List String) (d d' : List (String × JVal))
    (h : ∀ f ∈ fs, lookupKey f d' = lookupKey f d) :
    featureRow fs d' = featureRow fs d := by
  induction fs with
  | nil => rfl
  | cons f rest ih =>
    simp only [featureRow, h f (List.mem_cons_self f rest)]
    rw [ih (fun x hx => h x (List.mem_cons_of_mem f hx))]

/-- C1 counterexample: the claim says a timeout on the outbound scoring
call makes POST /predict return status 500; on the code it returns 400,
because score_model re-raises the timeout as a plain Exception, which the
handler's generic (non-network) branch catches. Shown at the all-zero
valid body with the default 30-second timeout; the body does embed the
timeout value. -/
theorem predict_timeout_status_counterexample :
    predict cfgEx .timeout (some dZeros) =
      ⟨errorBody "An error occurred: Request timed out after 30 seconds. The model endpoint may be slow or unavailable.", 400⟩ ∧
    (predict cfgEx .timeout (some dZeros)).status ≠ 500 := by
  refine ⟨rfl, ?_⟩
  have h : (predict cfgEx .timeout (some dZeros)).status = 400 := rfl
  rw [h]
  decide

/-- C1 amended: if the outbound scoring call raises a timeout, POST
/predict returns HTTP status 400 (not 500) with a response body whose
error message contains the configured timeout value. -/
theorem predict_timeout_returns_400 (cfg : Config) (d : List (String × JVal))
    (h : (validate_input_data d).1 = true) :
    predict cfg .timeout (some d) =
      ⟨errorBody ("An error occurred: Request timed out after " ++ toString cfg.REQUEST_TIMEOUT ++
        " seconds. The model endpoint may be slow or unavailable."), 400⟩ := by
  rw [predict_valid_eq cfg .timeout d h]
  rfl

/-- Witness for the amended C1 at the all-zero valid body and the default
configuration (REQUEST_TIMEOUT = 30). -/
theorem predict_timeout_returns_400_witness :
    (validate_input_data dZeros).1 = true ∧
    predict cfgEx .timeout (some dZeros) =
      ⟨errorBody ("An error occurred: Request timed out after " ++ toString cfgEx.REQUEST_TIMEOUT ++
        " seconds. The model endpoint may be slow or unavailable."), 400⟩ :=
  ⟨by decide, predict_timeout_returns_400 cfgEx dZeros (by decide)⟩

/-- C4: for every valid input mapping, regardless of the mapping's entry
order, the vectorized single-row record has columns exactly the declared
10-name order with index [0], position i of the row holds the float value
of the feature named by column i (absent entries defaulting to 0.0), and
the serialized scoring payload keeps columns and data[0] positionally
aligned with index [0]. -/
theorem vectorize_column_order_and_alignment (d d' : List (String × JVal))
    (hvalid : (validate_input_data d).1 = true)
    (hagree : ∀ f ∈ MODEL_FEATURES, lookupKey f d' = lookupKey f d) :
    ∃ row,
      build_dataframe_from_request d = some ⟨MODEL_FEATURES, [0], [row]⟩ ∧
      build_dataframe_from_request d' = build_dataframe_from_request d ∧
      row.length = MODEL_FEATURES.length ∧
      (∀ i, ∀ hi : i < MODEL_FEATURES.length,
        row[i]? = pyFloat ((lookupKey (MODEL_FEATURES.get ⟨i, hi⟩) d).getD (.num (.fin 0)))) ∧
      score_request_payload ⟨MODEL_FEATURES, [0], [row]⟩ =
        .obj [("dataframe_split", .obj
          [("index", .arr [.num (.fin 0)]),
           ("columns", .arr (MODEL_FEATURES.map .str)),
           ("data", .arr [.arr (row.map .num)])])] := by
  refine ⟨rowOf d, build_of_valid d hvalid, ?_, by simp [rowOf], ?_, ?_⟩
  · simp [build_dataframe_from_request, featureRow_congr MODEL_FEATURES d d' hagree]
  · intro i hi
    have hf : MODEL_FEATURES.get ⟨i, hi⟩ ∈ MODEL_FEATURES := List.get_mem _ _ _
    obtain ⟨v, hv, hp⟩ := (validate_ok_char d).1 hvalid _ hf
    obtain ⟨p, hp2⟩ : ∃ p, pyFloat v = some p := by
      cases hq : pyFloat v with
      | none => rw [hq] at hp; simp at hp
      | some p => exact ⟨p, rfl⟩
    unfold rowOf
    rw [List.getElem?_map, List.getElem?_eq_getElem hi]
    rw [List.get_eq_getElem] at hv
    simp [List.get_eq_getElem, hv, hp2]
  · simp [score_request_payload]

/-- Witness for C4: dMixed and its reversed listing dMixedPerm vectorize
to the same single-row frame, whose row holds the parsed values in
declared column order. -/
theorem vectorize_column_order_and_alignment_witness :
    (validate_input_data dMixed).1 = true ∧
    (∀ f ∈ MODEL_FEATURES, lookupKey f dMixedPerm = lookupKey f dMixed) ∧
    build_dataframe_from_request dMixed =
      some ⟨MODEL_FEATURES, [0],
        [[.fin (mkRat 1 2), .fin (mkRat 1 1), .fin 0, .fin 0, .fin 0,
          .fin 0, .fin 0, .fin 0, .fin 0, .fin 0]]⟩ ∧
    build_dataframe_from_request dMixedPerm = build_dataframe_from_request dMixed := by
  have hag : ∀ f ∈ MODEL_FEATURES, lookupKey f dMixedPerm = lookupKey f dMixed := by
    intro f hf
    fin_cases hf <;> rfl
  obtain ⟨row, h1, h2, h3, h4, h5⟩ :=
    vectorize_column_order_and_alignment dMixed dMixedPerm (by decide) hag
  exact ⟨by decide, hag, by decide, h2⟩

/-- C5: a non-200 response from the scoring service makes score_model
raise an error whose message embeds the status code and the raw response
body, and POST /predict then returns status 400 with that message inside
the error field. -/
theorem non_success_status_embeds_status_and_body (cfg : Config) (d : List (String × JVal))
    (status : Nat) (text : String) (jbody : JVal)
    (hvalid : (validate_input_data d).1 = true) (hstat : status ≠ 200) :
    (∀ df, score_model cfg df (.response status text jbody) =
        .error (.exn ("Request failed with status " ++ toString status ++
          ". Response: " ++ text))) ∧
    predict cfg (.response status text jbody) (some d) =
      ⟨errorBody ("An error occurred: Request failed with status " ++ toString status ++
        ". Response: " ++ text), 400⟩ := by
  have hsc : ∀ df, score_model cfg df (.response status text jbody) =
      .error (.exn ("Request failed with status " ++ toString status ++
        ". Response: " ++ text)) := by
    intro df
    simp [score_model, hstat]
  refine ⟨hsc, ?_⟩
  rw [predict_valid_eq cfg _ d hvalid, hsc]
  rfl

/-- Witness for C5: upstream 503 with body overloaded at the all-zero
valid request: /predict answers 400 and the message carries 503 and
overloaded. -/
theorem non_success_status_embeds_status_and_body_witness :
    (validate_input_data dZeros).1 = true ∧ (503 ≠ 200) ∧
    predict cfgEx (.response 503 "overloaded" .null) (some dZeros) =
      ⟨errorBody "An error occurred: Request failed with status 503. Response: overloaded", 400⟩ :=
  ⟨by decide, by decide,
    (non_success_status_embeds_status_and_body cfgEx dZeros 503 "overloaded" .null
      (by decide) (by decide)).2⟩

/-- C6: on a 200 scoring response, when the parsed object has a
predictions field holding a non-empty sequence, /predict returns success
with its first element; when there is no predictions field, the
prediction is the entire parsed object. Both answers carry status 200. -/
theorem predict_interprets_predictions_field (cfg : Config) (d : List (String × JVal))
    (kvs : List (String × JVal)) (text : String)
    (hvalid : (validate_input_data d).1 = true) :
    (∀ x rest, lookupKey "predictions" kvs = some (.arr (x :: rest)) →
        predict cfg (.response 200 text (.obj kvs)) (some d) = ⟨successBody x, 200⟩) ∧
    (lookupKey "predictions" kvs = none →
        predict cfg (.response 200 text (.obj kvs)) (some d) =
          ⟨successBody (.obj kvs), 200⟩) := by
  constructor
  · intro x rest hx
    rw [predict_valid_eq cfg _ d hvalid]
    simp [score_model, extract_prediction, hx]
  · intro hnone
    rw [predict_valid_eq cfg _ d hvalid]
    simp [score_model, extract_prediction, hnone]

/-- Witness for C6 at the spec's example response predictions = [152.5]
and at a response without a predictions field. -/
theorem predict_interprets_predictions_field_witness :
    (validate_input_data dZeros).1 = true ∧
    predict cfgEx (.response 200 "ok" (.obj predResp)) (some dZeros) =
      ⟨successBody (.num (.fin (mkRat 305 2))), 200⟩ ∧
    predict cfgEx (.response 200 "ok" (.obj predRespNoField)) (some dZeros) =
      ⟨successBody (.obj predRespNoField), 200⟩ :=
  ⟨by decide,
    (predict_interprets_predictions_field cfgEx dZeros predResp "ok" (by decide)).1
      (.num (.fin (mkRat 305 2))) [] rfl,
    (predict_interprets_predictions_field cfgEx dZeros predRespNoField "ok" (by decide)).2 rfl⟩

/-- C7: an absent request body, and equally an empty (falsy) JSON object
body, make /predict answer 400 with the exact message No data provided in
request body; the response is the same for every remote outcome and
configuration, so neither validation, vectorization nor the outbound
scoring call contributes to it. -/
theorem predict_empty_body_no_data (cfg : Config) (remote : RemoteOutcome) :
    predict cfg remote none = ⟨errorBody "No data provided in request body", 400⟩ ∧
    predict cfg remote (some []) = ⟨errorBody "No data provided in request body", 400⟩ :=
  ⟨rfl, rfl⟩

/-- C8: with both the token and the endpoint URL unset, /health reports
unhealthy (500) listing both corresponding error strings; whenever
validate_config reports valid, /health reports healthy (200) with the app
name and version. -/
theorem health_check_reports_config_validity (cfg : Config) :
    (cfg.DATABRICKS_TOKEN = none → cfg.MLFLOW_ENDPOINT_URL = none →
      health_check cfg = ⟨.obj [("status", .str "unhealthy"),
        ("errors", .arr [
          .str "DATABRICKS_TOKEN is not set. Please set it in your .env file or as an environment variable.",
          .str "MLFLOW_ENDPOINT_URL is not set. Please configure your MLflow endpoint URL."])], 500⟩) ∧
    ((validate_config cfg).1 = true →
      health_check cfg = ⟨.obj [("status", .str "healthy"), ("app", .str cfg.APP_NAME),
        ("version", .str cfg.APP_VERSION)], 200⟩) := by
  constructor
  · intro h1 h2
    simp [health_check, validate_config, pyTruthyStr, h1, h2]
  · intro hv
    simp [health_check, hv]

/-- Witness for C8 at a Config with both values unset and at a fully set
HTTPS Config. -/
theorem health_check_reports_config_validity_witness :
    cfgUnset.DATABRICKS_TOKEN = none ∧ (validate_config cfgEx).1 = true ∧
    health_check cfgUnset = ⟨.obj [("status", .str "unhealthy"),
      ("errors", .arr [
        .str "DATABRICKS_TOKEN is not set. Please set it in your .env file or as an environment variable.",
        .str "MLFLOW_ENDPOINT_URL is not set. Please configure your MLflow endpoint URL."])], 500⟩ ∧
    health_check cfgEx = ⟨.obj [("status", .str "healthy"),
      ("app", .str "Diabetes Progression Predictor"),
      ("version", .str "1.0.0")], 200⟩ :=
  ⟨rfl, by decide,
    (health_check_reports_config_validity cfgUnset).1 rfl rfl,
    (health_check_reports_config_validity cfgEx).2 (by decide)⟩
